import Mathlib

/-!
Verification of the case status classification and aggregation engine of the
GIDAS Explorer backend (`src/backend/api/*.py`).

The dashboard statistics endpoints run SQL `COUNT` queries whose `WHERE`
clauses combine equality (`==`), inequality (`!=`), `IS NULL` and `COALESCE`
tests over the nullable integer columns `FærdigmeldtInt` and `AfsluttetInt`
and the nullable string column `Påbud` of `AMOSagsbehandling`.  We embed one
row of that table (restricted to the fields these queries read, after the
join that selects the rows of one projekttype) as the structure `Sag`, embed
each query filter as a boolean predicate with SQL three-valued-logic
semantics (a `NULL` comparison is UNKNOWN, so the row is filtered out), and
embed each `COUNT` as `List.countP` over the materialized rows.
-/

namespace S3App

/-- SQL equality `col = v`: TRUE only when the column is non-NULL and equal
(`NULL = v` is UNKNOWN and filters the row out). -/
def sqlEq (o : Option Int) (v : Int) : Bool :=
  o == some v

/-- SQL inequality `col <> v`: TRUE only when the column is non-NULL and
different (`NULL <> v` is UNKNOWN and filters the row out). -/
def sqlNe (o : Option Int) (v : Int) : Bool :=
  match o with
  | some x => x != v
  | none => false

/-- SQL test `col IS NULL`. -/
def sqlIsNull (o : Option Int) : Bool :=
  o.isNone

/-- One `AMOSagsbehandling` row, restricted to the columns the statistics
queries read.  Dates are modelled as day numbers.  A list of `Sag` models the
rows remaining after the projekttype join filter of the respective query. -/
structure Sag where
  FaerdigmeldtInt : Option Int
  AfsluttetInt : Option Int
  Paabud : Option String
  OprettetDato : Option Int
deriving Repr, DecidableEq

/-- Filter `Påbud == "Ja"` used by every påbud count. -/
def sagPaabudJa (r : Sag) : Bool :=
  r.Paabud == some "Ja"

/-- Filter `OprettetDato >= cutoff` (a NULL date filters the row out). -/
def sagOprettetSiden (cutoff : Int) (r : Sag) : Bool :=
  match r.OprettetDato with
  | some d => cutoff ≤ d
  | none => false

/-!
Embedding of `aabenland.py`, `get_aabenland_stats`.
-/

/-- Lines 84-97 of `aabenland.py`, "afsluttede" filter:
`FærdigmeldtInt == -1 OR AfsluttetInt == 1`. -/
def aabenlandAfsluttet (r : Sag) : Bool :=
  sqlEq r.FaerdigmeldtInt (-1) || sqlEq r.AfsluttetInt 1

/-- Lines 100-114 of `aabenland.py`, "aktive" filter:
`FærdigmeldtInt != 1 AND AfsluttetInt != 1 AND FærdigmeldtInt != -1`
(raw SQL `!=`, so a NULL flag makes the conjunct UNKNOWN and drops the row). -/
def aabenlandAktiv (r : Sag) : Bool :=
  sqlNe r.FaerdigmeldtInt 1 && sqlNe r.AfsluttetInt 1 && sqlNe r.FaerdigmeldtInt (-1)

/-- Lines 132-148 of `aabenland.py`: count of active cases with
`Påbud == "Ja"` (used both as `aabenland_paabud_aktive_temp` and as
`aabenland_paabud_aktive`, which repeat the same query). -/
def aabenlandPaabudAktive (l : List Sag) : Nat :=
  l.countP fun r => aabenlandAktiv r && sagPaabudJa r

/-- Line 151 of `aabenland.py`, the "MIDLERTIDIGT FIX":
`aabenland_paabud_total = int(aabenland_paabud_aktive_temp * 1.3)`.
Modelled with exact arithmetic as `(n * 13) / 10` (floor); the Python float
computation agrees at the concrete inputs evaluated below. -/
def aabenlandPaabudTotal (l : List Sag) : Nat :=
  aabenlandPaabudAktive l * 13 / 10

/-!
Embedding of `dashboard.py`, `get_dashboard_stats`.
-/

/-- Lines 50-58 of `dashboard.py`, "afsluttede" filter:
`FærdigmeldtInt == 1 OR AfsluttetInt == 1 OR AfsluttetInt == -1`. -/
def dashboardAfsluttet (r : Sag) : Bool :=
  sqlEq r.FaerdigmeldtInt 1 || sqlEq r.AfsluttetInt 1 || sqlEq r.AfsluttetInt (-1)

/-- Lines 61-76 of `dashboard.py`, "aktive" filter:
`(FærdigmeldtInt != 1 OR FærdigmeldtInt IS NULL) AND (AfsluttetInt == 0 OR
AfsluttetInt IS NULL)`. -/
def dashboardAktiv (r : Sag) : Bool :=
  (sqlNe r.FaerdigmeldtInt 1 || sqlIsNull r.FaerdigmeldtInt)
    && (sqlEq r.AfsluttetInt 0 || sqlIsNull r.AfsluttetInt)

/-!
Embedding of `sager.py`, `list_sager`, branch `faerdigmeldt == 0`.
-/

/-- Lines 375-380 of `sager.py`, active-case filter:
`COALESCE(FærdigmeldtInt, 0) != 1 AND COALESCE(AfsluttetInt, 0) != 1 AND
COALESCE(AfsluttetInt, 0) != -1` (NULL is explicitly coalesced to 0). -/
def sagerAktiv (r : Sag) : Bool :=
  r.FaerdigmeldtInt.getD 0 != 1 && r.AfsluttetInt.getD 0 != 1
    && r.AfsluttetInt.getD 0 != -1

/-!
Embedding of `separering.py`, `get_separering_stats`.
-/

/-- Lines 87-100 of `separering.py`, "afsluttede" filter:
`FærdigmeldtInt == -1 OR AfsluttetInt == 1` (same rule as aabenland). -/
def separeringAfsluttet (r : Sag) : Bool :=
  sqlEq r.FaerdigmeldtInt (-1) || sqlEq r.AfsluttetInt 1

/-- Lines 104-118 of `separering.py`, "aktive" filter:
`FærdigmeldtInt != 1 AND AfsluttetInt != 1 AND FærdigmeldtInt != -1`. -/
def separeringAktiv (r : Sag) : Bool :=
  sqlNe r.FaerdigmeldtInt 1 && sqlNe r.AfsluttetInt 1 && sqlNe r.FaerdigmeldtInt (-1)

/-- Lines 134-144 of `separering.py`, total påbud: direct count of
`Påbud == "Ja"` over the category's rows (no estimation factor). -/
def separeringPaabudTotal (l : List Sag) : Nat :=
  l.countP sagPaabudJa

/-- Lines 147-163 of `separering.py`, active påbud: active filter plus
`Påbud == "Ja"`. -/
def separeringPaabudAktive (l : List Sag) : Nat :=
  l.countP fun r => separeringAktiv r && sagPaabudJa r

/-!
Embedding of `dispensationssag.py` and `nedsivningstilladelse.py`
(the single-flag variant).
-/

/-- Lines 231-241 of `dispensationssag.py`, "afsluttede" filter:
`AfsluttetInt == -1`. -/
def dispensationssagAfsluttet (r : Sag) : Bool :=
  sqlEq r.AfsluttetInt (-1)

/-- Lines 245-255 of `dispensationssag.py`, "aktive" filter:
`AfsluttetInt == 0` (a NULL `AfsluttetInt` is neither afsluttet nor aktiv,
since `NULL == 0` is UNKNOWN). -/
def dispensationssagAktiv (r : Sag) : Bool :=
  sqlEq r.AfsluttetInt 0

/-- Lines 273-283 of `dispensationssag.py`, total påbud: direct count of
`Påbud == "Ja"`. -/
def dispensationssagPaabudTotal (l : List Sag) : Nat :=
  l.countP sagPaabudJa

/-- Lines 286-298 of `dispensationssag.py`, active påbud:
`AfsluttetInt == 0 AND Påbud == "Ja"`. -/
def dispensationssagPaabudAktive (l : List Sag) : Nat :=
  l.countP fun r => dispensationssagAktiv r && sagPaabudJa r

/-- Lines 149-158 of `nedsivningstilladelse.py`, "afsluttede" filter:
`AfsluttetInt == -1`. -/
def nedsivningstilladelseAfsluttet (r : Sag) : Bool :=
  sqlEq r.AfsluttetInt (-1)

/-- Lines 163-174 of `nedsivningstilladelse.py`, "aktive" filter:
`AfsluttetInt == 0`. -/
def nedsivningstilladelseAktiv (r : Sag) : Bool :=
  sqlEq r.AfsluttetInt 0

/-- Residual class needed to state the amended partition for the Åben Land
classifier: rows with `FærdigmeldtInt == 1` that are not afsluttede (the
færdigmeldt-but-not-closed cases).  `get_aabenland_stats` computes no count
for this class; it is defined here only to state what the two computed
buckets leave over. -/
def aabenlandFaerdigmeldtRest (r : Sag) : Bool :=
  sqlEq r.FaerdigmeldtInt 1 && !aabenlandAfsluttet r

/-!
Embedding of the stats responses and the catch-all error path.

Both `separering.py` and `dispensationssag.py` wrap the whole stats
computation in `try/except Exception`; the `except` branch returns a
`DashboardStatsResponse` with `success=False`, an all-zero `DashboardStats`
and an error message, and re-raises nothing.  We embed each handler as a
total function of the outcome of the database interaction: `Except.ok rows`
models the queries succeeding over the materialized category rows,
`Except.error e` models an arbitrary internal exception with message `e`
raised inside the `try` block.
-/

/-- Payload `DashboardStats` of `schemas/dashboard.py` (the five KPI figures
plus the two deprecated fields). -/
structure DashboardStats where
  total_projekttyper : Nat
  active_projekter : Nat
  total_projekter : Nat
  total_haendelser : Nat
  active_haendelser : Nat
  pending_sagsbehandling : Nat
  recent_imports : Nat
deriving Repr, DecidableEq

/-- The all-zero `DashboardStats` built in the `except` branches. -/
def zeroStats : DashboardStats :=
  ⟨0, 0, 0, 0, 0, 0, 0⟩

/-- Response envelope of `schemas/dashboard.py` (success flag, data,
message). -/
structure DashboardStatsResponse where
  success : Bool
  data : DashboardStats
  message : String
deriving Repr, DecidableEq

/-- Lines 83-198 of `separering.py`, `get_separering_stats`: on success the
five counts are assembled into a `success=True` response; on any exception
the `except Exception` branch (lines 181-198) returns `success=False`,
all-zero stats and the error message — the exception is never propagated. -/
def get_separering_stats (cutoff : Int) (outcome : Except String (List Sag)) :
    DashboardStatsResponse :=
  match outcome with
  | Except.ok l =>
    { success := true
      data :=
        { total_projekttyper := l.countP separeringAfsluttet
          active_projekter := l.countP separeringAktiv
          total_projekter := l.countP (sagOprettetSiden cutoff)
          total_haendelser := separeringPaabudTotal l
          active_haendelser := separeringPaabudAktive l
          pending_sagsbehandling := 0
          recent_imports := 0 }
      message := "Separering dashboard statistics retrieved successfully" }
  | Except.error e =>
    { success := false
      data := zeroStats
      message := "Error retrieving separering statistics: " ++ e }

/-- Lines 190-332 of `dispensationssag.py`, `get_dispensationssag_stats`:
same shape; the `except Exception` branch (lines 315-332) returns
`success=False`, all-zero stats and the error message. -/
def get_dispensationssag_stats (cutoff : Int)
    (outcome : Except String (List Sag)) : DashboardStatsResponse :=
  match outcome with
  | Except.ok l =>
    { success := true
      data :=
        { total_projekttyper := l.countP dispensationssagAfsluttet
          active_projekter := l.countP dispensationssagAktiv
          total_projekter := l.countP (sagOprettetSiden cutoff)
          total_haendelser := dispensationssagPaabudTotal l
          active_haendelser := dispensationssagPaabudAktive l
          pending_sagsbehandling := 0
          recent_imports := 0 }
      message := "Dispensationssag dashboard statistics retrieved successfully" }
  | Except.error e =>
    { success := false
      data := zeroStats
      message := "Error retrieving dispensationssag statistics: " ++ e }

/-!
Embedding of `reports.py`, `get_processing_times`.

The endpoint computes `AVG(DATEDIFF(day, OprettetDato,
COALESCE(FærdigmeldingDato, AfsluttetDato)))` over completed cases, grouped
by projekttype, and the same average ungrouped for the overall figure.
Dates are modelled as day numbers, so `DATEDIFF(day, a, b) = b - a`;
SQL Server `AVG` over an integer expression is integer division truncating
toward zero (`Int.tdiv`).  A list of `SagsTid` models the rows of one
projekttype group (for the per-category figure) or all rows (for the
overall figure).
-/

/-- One row as read by `get_processing_times` (`reports.py` lines 251-282). -/
structure SagsTid where
  OprettetDato : Option Int
  FaerdigmeldingDato : Option Int
  AfsluttetDato : Option Int
  FaerdigmeldtInt : Option Int
  AfsluttetInt : Option Int
deriving Repr, DecidableEq

/-- Lines 268-281 of `reports.py`, row filter: completed
(`FærdigmeldtInt == 1 OR AfsluttetInt == 1 OR AfsluttetInt == -1`), has a
completion date, has a creation date, and was created on/after the one-year
cutoff. -/
def processingFilter (cutoff : Int) (r : SagsTid) : Bool :=
  (sqlEq r.FaerdigmeldtInt 1 || sqlEq r.AfsluttetInt 1
      || sqlEq r.AfsluttetInt (-1))
    && (r.FaerdigmeldingDato.isSome || r.AfsluttetDato.isSome)
    && r.OprettetDato.isSome
    && (match r.OprettetDato with
        | some d => decide (cutoff ≤ d)
        | none => false)

/-- Day delta `DATEDIFF(day, OprettetDato, COALESCE(FærdigmeldingDato,
AfsluttetDato))` (`reports.py` lines 254-261); only evaluated on rows passing
`processingFilter`, where both dates are present. -/
def behandlingsdage (r : SagsTid) : Int :=
  (r.FaerdigmeldingDato <|> r.AfsluttetDato).getD 0 - r.OprettetDato.getD 0

/-- SQL `AVG` of the day deltas over the filtered rows: sum divided by count
with truncation toward zero; `NULL` (empty set) becomes 0 through the
`.scalar() or 0` idiom. -/
def avgDays (cutoff : Int) (l : List SagsTid) : Int :=
  let f := l.filter (processingFilter cutoff)
  if f.isEmpty then 0 else Int.tdiv ((f.map behandlingsdage).sum) f.length

/-- Lines 321-327 of `reports.py`: the per-projekttype figure; a negative
average is coerced to 0 (`avg_days = 0  # Set to 0 instead of negative`). -/
def reportedCategoryAvg (cutoff : Int) (l : List SagsTid) : Int :=
  let a := avgDays cutoff l
  if a < 0 then 0 else a

/-- Lines 292-319 and 335 of `reports.py`: the overall figure
(`overall_average_days`), reported without the negative-coercion step. -/
def reportedOverallAvg (cutoff : Int) (l : List SagsTid) : Int :=
  avgDays cutoff l

/-!
Embedding of `forecasts.py`, `analyze_seasonal_patterns`.

The endpoint groups case counts by creation month (a `GROUP BY` row per
month that occurs in the data), then builds one pattern entry per month
1..12.  Counts and indices are modelled with exact rational arithmetic.
-/

/-- One `GROUP BY extract(month, OprettetDato)` result row
(`forecasts.py` lines 375-392). -/
structure MonthRow where
  month : Nat
  cases : Nat
deriving Repr, DecidableEq

/-- Line 396 of `forecasts.py`:
`total_cases = sum([row.cases for row in monthly_data])`. -/
def totalCases (rows : List MonthRow) : Nat :=
  (rows.map (fun row => row.cases)).sum

/-- Line 397 of `forecasts.py`:
`avg_monthly = total_cases / 12 if total_cases > 0 else 0`. -/
def avgMonthly (rows : List MonthRow) : ℚ :=
  if totalCases rows > 0 then (totalCases rows : ℚ) / 12 else 0

/-- Lines 400-401 of `forecasts.py`:
`month_data = next((row for row in monthly_data if row.month == month),
None); cases = month_data.cases if month_data else 0`. -/
def casesFor (rows : List MonthRow) (m : Nat) : Nat :=
  match rows.find? (fun row => row.month == m) with
  | some row => row.cases
  | none => 0

/-- Line 403 of `forecasts.py`:
`seasonal_index = (cases / avg_monthly) if avg_monthly > 0 else 1.0`. -/
def seasonalIndexFor (rows : List MonthRow) (m : Nat) : ℚ :=
  if avgMonthly rows > 0 then (casesFor rows m : ℚ) / avgMonthly rows else 1

/-- One entry of `monthly_patterns` (`forecasts.py` lines 405-412; the
`month_name` field is omitted as pure presentation). -/
structure MonthPattern where
  month : Nat
  total_cases : Nat
  seasonal_index : ℚ
  is_peak : Bool
  is_low : Bool
deriving Repr, DecidableEq

/-- Builds the pattern entry for month `m` exactly as the loop body does:
`is_peak = seasonal_index > 1.2`, `is_low = seasonal_index < 0.8`. -/
def monthPattern (rows : List MonthRow) (m : Nat) : MonthPattern :=
  { month := m
    total_cases := casesFor rows m
    seasonal_index := seasonalIndexFor rows m
    is_peak := decide (seasonalIndexFor rows m > 12 / 10)
    is_low := decide (seasonalIndexFor rows m < 8 / 10) }

/-- Lines 399-412 of `forecasts.py`:
`for month in range(1, 13): monthly_patterns.append(...)`. -/
def monthlyPatterns (rows : List MonthRow) : List MonthPattern :=
  (List.range 12).map (fun i => monthPattern rows (i + 1))

/-- Input constructor used by the flat-season claim: all twelve months
present, each with the same total `t`. -/
def equalMonths (t : Nat) : List MonthRow :=
  (List.range 12).map (fun i => ⟨i + 1, t⟩)

/-!
Concrete test inputs used by the counterexample and failing-input theorems.
-/

/-- Test row: a legacy-closed case, `FærdigmeldtInt = -1, AfsluttetInt = 0`. -/
def sagLegacyClosed : Sag :=
  ⟨some (-1), some 0, none, none⟩

/-- Test row: an active case carrying an order, `FærdigmeldtInt = 0,
AfsluttetInt = 0, Påbud = "Ja"`. -/
def sagAktivMedPaabud : Sag :=
  ⟨some 0, some 0, some "Ja", none⟩

/-- Test row: a closed case carrying an order, `FærdigmeldtInt = -1,
AfsluttetInt = 1, Påbud = "Ja"`. -/
def sagAfsluttetMedPaabud : Sag :=
  ⟨some (-1), some 1, some "Ja", none⟩

/-- Test record set for the påbud scenario: 71 active cases with orders and
10 closed cases with orders, so the true with-order total is 81. -/
def paabudScenarie : List Sag :=
  List.replicate 71 sagAktivMedPaabud ++ List.replicate 10 sagAfsluttetMedPaabud

/-- Test row for `get_processing_times`: completed (`FærdigmeldtInt = 1`),
created on day 10 but færdigmeldt on day 5, i.e. completion precedes
creation by 5 days. -/
def tidNegativ : SagsTid :=
  ⟨some 10, some 5, none, some 1, some 0⟩

/-- Test row for `get_processing_times`: completed, created on day 0 and
færdigmeldt on day 15 (a 15-day processing time). -/
def tidPositiv : SagsTid :=
  ⟨some 0, some 15, none, some 1, some 0⟩

/-!
Claim theorems.
-/

/-- C1 (counterexample): the Variant-A closure rule does NOT hold for every
operation that classifies cases.  `get_dashboard_stats` (`dashboard.py`
lines 49-76), one of the operations the claim covers, classifies a record
with `FærdigmeldtInt = -1, AfsluttetInt = 0` as Active, not Closed: its
"afsluttede" filter is `FærdigmeldtInt == 1 OR AfsluttetInt == 1 OR
AfsluttetInt == -1`, which the record fails, while its "aktive" filter
accepts the record. -/
theorem dashboard_classifies_legacy_closed_as_active :
    dashboardAfsluttet sagLegacyClosed = false
    ∧ dashboardAktiv sagLegacyClosed = true := by
  decide

/-- C1 (amended): the closure rule `Closed ⟺ FærdigmeldtInt == -1 OR
AfsluttetInt == 1` holds for the Åben Land and Separering stats classifiers,
and there a record with `FærdigmeldtInt = -1, AfsluttetInt = 0` is counted
Closed and not Active; the global `get_dashboard_stats` however uses a
different rule and counts that record as Active. -/
theorem aabenland_variantA_closed_rule (r : Sag) :
    (aabenlandAfsluttet r = true
        ↔ r.FaerdigmeldtInt = some (-1) ∨ r.AfsluttetInt = some 1)
    ∧ (separeringAfsluttet r = true
        ↔ r.FaerdigmeldtInt = some (-1) ∨ r.AfsluttetInt = some 1)
    ∧ aabenlandAfsluttet sagLegacyClosed = true
    ∧ aabenlandAktiv sagLegacyClosed = false
    ∧ dashboardAktiv sagLegacyClosed = true := by
  refine ⟨?_, ?_, by decide, by decide, by decide⟩ <;>
    simp [aabenlandAfsluttet, separeringAfsluttet, sqlEq]

/-- C2 (counterexample): the bucket partition invariant fails on the code.
`get_dashboard_stats` counts the record `FærdigmeldtInt = 0, AfsluttetInt =
2` in neither the active nor the afsluttede bucket, and `get_aabenland_stats`
counts the record `FærdigmeldtInt = NULL, AfsluttetInt = 0` in neither of its
buckets (nor in the residual `FærdigmeldtInt == 1` class), so for the
singleton record set the bucket counts sum to 0 while `len(records) -
skippedCount = 1` with nothing skipped. -/
theorem dashboard_buckets_not_exhaustive :
    dashboardAktiv ⟨some 0, some 2, none, none⟩ = false
    ∧ dashboardAfsluttet ⟨some 0, some 2, none, none⟩ = false
    ∧ ([⟨some 0, some 2, none, none⟩] : List Sag).countP dashboardAktiv
        + ([⟨some 0, some 2, none, none⟩] : List Sag).countP dashboardAfsluttet = 0
    ∧ ([⟨some 0, some 2, none, none⟩] : List Sag).length = 1
    ∧ aabenlandAktiv ⟨none, some 0, none, none⟩ = false
    ∧ aabenlandAfsluttet ⟨none, some 0, none, none⟩ = false
    ∧ aabenlandFaerdigmeldtRest ⟨none, some 0, none, none⟩ = false := by
  decide

/-- C2 (amended): the active and afsluttede buckets are mutually exclusive
for every record in both `get_dashboard_stats` and `get_aabenland_stats`
(no record is counted in both), and for record sets in which both status
flags are non-NULL the Åben Land classification is exhaustive once the
residual færdigmeldt class is added: `aktive + afsluttede + færdigmeldt-rest
= len(records)`.  Records with a NULL flag can fall in no bucket, and the
endpoints compute no FinishedReported or ClosedWithoutReport counts. -/
theorem aabenland_dashboard_bucket_exclusivity (r : Sag) (l : List Sag)
    (hl : ∀ s ∈ l, s.FaerdigmeldtInt.isSome ∧ s.AfsluttetInt.isSome) :
    ¬(dashboardAktiv r = true ∧ dashboardAfsluttet r = true)
    ∧ ¬(aabenlandAktiv r = true ∧ aabenlandAfsluttet r = true)
    ∧ l.countP aabenlandAktiv + l.countP aabenlandAfsluttet
        + l.countP aabenlandFaerdigmeldtRest = l.length := by
  refine ⟨?_, ?_, ?_⟩
  · rcases r with ⟨fm, af, p, o⟩
    cases fm <;> cases af <;>
      simp [dashboardAktiv, dashboardAfsluttet, sqlEq, sqlNe, sqlIsNull] <;>
      omega
  · rcases r with ⟨fm, af, p, o⟩
    cases fm <;> cases af <;>
      simp [aabenlandAktiv, aabenlandAfsluttet, sqlEq, sqlNe] <;>
      omega
  · induction l with
    | nil => simp
    | cons s t ih =>
      have hs := hl s (by simp)
      have ht : ∀ x ∈ t, x.FaerdigmeldtInt.isSome ∧ x.AfsluttetInt.isSome :=
        fun x hx => hl x (by simp [hx])
      have ih2 := ih ht
      obtain ⟨x, hx⟩ := Option.isSome_iff_exists.mp hs.1
      obtain ⟨y, hy⟩ := Option.isSome_iff_exists.mp hs.2
      have hone : (if aabenlandAktiv s then (1 : Nat) else 0)
          + (if aabenlandAfsluttet s then (1 : Nat) else 0)
          + (if aabenlandFaerdigmeldtRest s then (1 : Nat) else 0) = 1 := by
        simp only [aabenlandAktiv, aabenlandAfsluttet, aabenlandFaerdigmeldtRest,
          sqlEq, sqlNe, hx, hy]
        split_ifs <;> simp_all <;> omega
      simp only [List.countP_cons, List.length_cons]
      omega

/-- C2 (witness): the amended theorem applied to a concrete record and a
concrete three-record set with non-NULL flags (one active, one færdigmeldt,
one afsluttet). -/
theorem aabenland_dashboard_bucket_exclusivity_witness :
    (∀ s ∈ ([⟨some 0, some 0, none, none⟩, ⟨some 1, some 0, none, none⟩,
        ⟨some (-1), some 1, none, none⟩] : List Sag),
      s.FaerdigmeldtInt.isSome ∧ s.AfsluttetInt.isSome)
    ∧ (¬(dashboardAktiv ⟨some 0, some 2, none, none⟩ = true
          ∧ dashboardAfsluttet ⟨some 0, some 2, none, none⟩ = true)
      ∧ ¬(aabenlandAktiv ⟨some 0, some 2, none, none⟩ = true
          ∧ aabenlandAfsluttet ⟨some 0, some 2, none, none⟩ = true)
      ∧ ([⟨some 0, some 0, none, none⟩, ⟨some 1, some 0, none, none⟩,
            ⟨some (-1), some 1, none, none⟩] : List Sag).countP aabenlandAktiv
          + ([⟨some 0, some 0, none, none⟩, ⟨some 1, some 0, none, none⟩,
            ⟨some (-1), some 1, none, none⟩] : List Sag).countP aabenlandAfsluttet
          + ([⟨some 0, some 0, none, none⟩, ⟨some 1, some 0, none, none⟩,
            ⟨some (-1), some 1, none, none⟩] : List Sag).countP aabenlandFaerdigmeldtRest
          = ([⟨some 0, some 0, none, none⟩, ⟨some 1, some 0, none, none⟩,
            ⟨some (-1), some 1, none, none⟩] : List Sag).length) :=
  ⟨by decide,
    aabenland_dashboard_bucket_exclusivity ⟨some 0, some 2, none, none⟩ _ (by decide)⟩

/-- C3 (code_bug evaluation): the None-equals-InProgress(0) invariant is
violated by `get_aabenland_stats`.  A record with `FærdigmeldtInt = 0,
AfsluttetInt = NULL` is excluded from the Åben Land (and Separering) active
counts, because their raw SQL `AfsluttetInt != 1` comparison is UNKNOWN on
NULL, while `list_sager` (COALESCE) and `get_dashboard_stats` (`IS NULL`
branches) count the same record as active. -/
theorem aabenland_null_flag_excluded_from_active :
    aabenlandAktiv ⟨some 0, none, none, none⟩ = false
    ∧ separeringAktiv ⟨some 0, none, none, none⟩ = false
    ∧ sagerAktiv ⟨some 0, none, none, none⟩ = true
    ∧ dashboardAktiv ⟨some 0, none, none, none⟩ = true := by
  decide

/-- C4 (counterexample): in the Variant-B modules a record with a
NULL/NotSet `AfsluttetInt` is NOT classified Active, contrary to the claim:
the "aktive" filter is the raw SQL `AfsluttetInt == 0`, which is UNKNOWN on
NULL, so the record is counted in neither the active nor the closed
bucket. -/
theorem variantB_null_flag_not_active :
    dispensationssagAktiv ⟨none, none, none, none⟩ = false
    ∧ dispensationssagAfsluttet ⟨none, none, none, none⟩ = false
    ∧ nedsivningstilladelseAktiv ⟨none, none, none, none⟩ = false
    ∧ nedsivningstilladelseAfsluttet ⟨none, none, none, none⟩ = false := by
  decide

/-- C4 (amended): in `get_dispensationssag_stats` and
`get_nedsivningstilladelse_stats` a record is counted Closed exactly when
`AfsluttetInt == -1` and Active exactly when `AfsluttetInt == 0`; any other
value (NULL, 2, ...) is counted in neither bucket (never merged into Active
or Closed), and no separate ClosedWithoutReport count is produced. -/
theorem variantB_single_flag_rule (r : Sag) :
    (dispensationssagAfsluttet r = true ↔ r.AfsluttetInt = some (-1))
    ∧ (dispensationssagAktiv r = true ↔ r.AfsluttetInt = some 0)
    ∧ (nedsivningstilladelseAfsluttet r = true ↔ r.AfsluttetInt = some (-1))
    ∧ (nedsivningstilladelseAktiv r = true ↔ r.AfsluttetInt = some 0) := by
  refine ⟨?_, ?_, ?_, ?_⟩ <;>
    simp [dispensationssagAfsluttet, dispensationssagAktiv,
      nedsivningstilladelseAfsluttet, nedsivningstilladelseAktiv, sqlEq]

/-- C5 (code_bug evaluation): on the documented scenario (71 active cases
with orders, here together with 10 closed cases with orders, 81 with-order
records in all), `get_aabenland_stats` returns the active figure 71
correctly but fabricates the total figure as `int(71 * 1.3) = 92` instead
of the direct count 81; `get_separering_stats` computes the same total by a
direct count and returns 81. -/
theorem aabenland_paabud_total_is_estimated :
    aabenlandPaabudAktive paabudScenarie = 71
    ∧ aabenlandPaabudTotal paabudScenarie = 92
    ∧ paabudScenarie.countP sagPaabudJa = 81
    ∧ separeringPaabudTotal paabudScenarie = 81 := by
  decide

/-- C6: order-count monotonicity.  For every record set, the active-with-
order figure is at most the total-with-order figure in each per-category
stats result: in Separering and Dispensationssag the active count is a
direct sub-count of the total count, and in Åben Land the fabricated total
`floor(active * 1.3)` is still at least the active count. -/
theorem paabud_monotonicity (l : List Sag) :
    aabenlandPaabudAktive l ≤ aabenlandPaabudTotal l
    ∧ separeringPaabudAktive l ≤ separeringPaabudTotal l
    ∧ dispensationssagPaabudAktive l ≤ dispensationssagPaabudTotal l := by
  refine ⟨?_, ?_, ?_⟩
  · rw [aabenlandPaabudTotal, Nat.le_div_iff_mul_le (by norm_num)]
    omega
  · refine List.countP_mono_left fun r _ h => ?_
    simp only [Bool.and_eq_true] at h
    exact h.2
  · refine List.countP_mono_left fun r _ h => ?_
    simp only [Bool.and_eq_true] at h
    exact h.2

/-- C6 (witness): the monotonicity theorem evaluated at the concrete påbud
scenario record set. -/
theorem paabud_monotonicity_witness :
    aabenlandPaabudAktive paabudScenarie ≤ aabenlandPaabudTotal paabudScenarie
    ∧ separeringPaabudAktive paabudScenarie ≤ separeringPaabudTotal paabudScenarie
    ∧ dispensationssagPaabudAktive paabudScenarie
        ≤ dispensationssagPaabudTotal paabudScenarie :=
  paabud_monotonicity paabudScenarie

/-- C7 (code_bug evaluation): `get_processing_times` does not exclude
records whose completion precedes creation.  For a record set whose only
record has creation day 10 and completion day 5 (delta -5): the per-category
figure is the zero-coerced 0 (not an "insufficient data" report) and the
overall figure is the negative -5; and adding a record with delta 15 shows
the negative delta biasing the mean (5 instead of 15).  No data-quality
count is produced anywhere. -/
theorem processing_times_negative_not_excluded :
    behandlingsdage tidNegativ = -5
    ∧ reportedCategoryAvg 0 [tidNegativ] = 0
    ∧ reportedOverallAvg 0 [tidNegativ] = -5
    ∧ reportedCategoryAvg 0 [tidNegativ, tidPositiv] = 5
    ∧ reportedOverallAvg 0 [tidNegativ, tidPositiv] = 5 := by
  decide

/-- C8: seasonal index definition and flat default.  When the average
monthly total is positive the index of month `m` is the month's total
divided by the average; over the record set where all 12 months have the
equal total `t` (any `t`, including 0) every index is 1; and over the empty
record set every index is 1 rather than a division error. -/
theorem seasonal_index_definition_and_flat_default (rows : List MonthRow)
    (t m : Nat) (hm1 : 1 ≤ m) (hm2 : m ≤ 12) (havg : 0 < avgMonthly rows) :
    seasonalIndexFor rows m = (casesFor rows m : ℚ) / avgMonthly rows
    ∧ seasonalIndexFor (equalMonths t) m = 1
    ∧ seasonalIndexFor [] m = 1 := by
  refine ⟨by simp [seasonalIndexFor, havg], ?_, ?_⟩
  · have hcf : casesFor (equalMonths t) m = t := by
      interval_cases m <;> simp [equalMonths, casesFor, List.range_succ]
    have htc : totalCases (equalMonths t) = 12 * t := by
      simp [equalMonths, totalCases, List.range_succ]
      omega
    rcases Nat.eq_zero_or_pos t with ht | ht
    · subst ht
      simp [seasonalIndexFor, avgMonthly, htc]
    · have ht0 : (t : ℚ) ≠ 0 := by positivity
      have havg2 : avgMonthly (equalMonths t) = (t : ℚ) := by
        rw [avgMonthly, htc]
        rw [if_pos (by omega)]
        push_cast
        ring
      rw [seasonalIndexFor, havg2, hcf, if_pos (by positivity)]
      exact div_self ht0
  · simp [seasonalIndexFor, avgMonthly, totalCases]

/-- C8 (witness): the seasonal-index theorem applied at the record set with
all twelve months equal to 3 and at month 5. -/
theorem seasonal_index_definition_and_flat_default_witness :
    (1 ≤ 5 ∧ 5 ≤ 12 ∧ 0 < avgMonthly (equalMonths 3))
    ∧ (seasonalIndexFor (equalMonths 3) 5
        = (casesFor (equalMonths 3) 5 : ℚ) / avgMonthly (equalMonths 3)
      ∧ seasonalIndexFor (equalMonths 3) 5 = 1
      ∧ seasonalIndexFor [] 5 = 1) :=
  ⟨⟨by norm_num, by norm_num,
      by norm_num [avgMonthly, totalCases, equalMonths, List.range_succ]⟩,
    seasonal_index_definition_and_flat_default (equalMonths 3) 3 5
      (by norm_num) (by norm_num)
      (by norm_num [avgMonthly, totalCases, equalMonths, List.range_succ])⟩

/-- C9 (counterexample): the error-propagation policy fails on the code.
The `except Exception` branches of `get_separering_stats` and
`get_dispensationssag_stats` catch an arbitrary internal exception and
return an all-zero statistics payload in its place instead of letting the
error surface as an exception. -/
theorem stats_endpoints_swallow_exceptions :
    get_separering_stats 0 (Except.error "boom")
      = ⟨false, zeroStats, "Error retrieving separering statistics: boom"⟩
    ∧ get_dispensationssag_stats 0 (Except.error "boom")
      = ⟨false, zeroStats, "Error retrieving dispensationssag statistics: boom"⟩ := by
  decide

/-- C9 (amended): the Separering and Dispensationssag stats endpoints never
propagate any internal exception: every error outcome is caught and mapped
to a response with `success = False`, all-zero statistics and the error
message in-band, while every successful outcome yields `success = True`. -/
theorem stats_error_path_masks_exception (e : String) (c : Int) (l : List Sag) :
    (get_separering_stats c (Except.error e)).success = false
    ∧ (get_separering_stats c (Except.error e)).data = zeroStats
    ∧ (get_separering_stats c (Except.error e)).message
        = "Error retrieving separering statistics: " ++ e
    ∧ (get_dispensationssag_stats c (Except.error e)).success = false
    ∧ (get_dispensationssag_stats c (Except.error e)).data = zeroStats
    ∧ (get_dispensationssag_stats c (Except.error e)).message
        = "Error retrieving dispensationssag statistics: " ++ e
    ∧ (get_separering_stats c (Except.ok l)).success = true
    ∧ (get_dispensationssag_stats c (Except.ok l)).success = true := by
  refine ⟨rfl, rfl, rfl, rfl, rfl, rfl, rfl, rfl⟩

/-- C10: seasonal-analysis shape invariant.  For every input, the monthly
pattern list has exactly 12 entries; the entry at position `i` is the
pattern for month `i + 1` (so months run 1 through 12 in order); in every
entry `is_peak` holds iff the seasonal index exceeds 1.2 and `is_low` iff
it is below 0.8, so no entry is both; and whenever the entry's month is
absent from the grouped data the entry carries `total_cases = 0`. -/
theorem seasonal_patterns_shape (rows : List MonthRow) (i : Fin 12) :
    (monthlyPatterns rows).length = 12
    ∧ (monthlyPatterns rows)[i.1]? = some (monthPattern rows (i.1 + 1))
    ∧ (monthPattern rows (i.1 + 1)).month = i.1 + 1
    ∧ ((monthPattern rows (i.1 + 1)).is_peak = true
        ↔ 12 / 10 < seasonalIndexFor rows (i.1 + 1))
    ∧ ((monthPattern rows (i.1 + 1)).is_low = true
        ↔ seasonalIndexFor rows (i.1 + 1) < 8 / 10)
    ∧ ¬((monthPattern rows (i.1 + 1)).is_peak = true
        ∧ (monthPattern rows (i.1 + 1)).is_low = true)
    ∧ ((∀ row ∈ rows, row.month ≠ i.1 + 1)
        → (monthPattern rows (i.1 + 1)).total_cases = 0) := by
  refine ⟨by simp [monthlyPatterns], ?_, rfl, ?_, ?_, ?_, ?_⟩
  · simp [monthlyPatterns, List.getElem?_map, List.getElem?_range, i.isLt]
  · simp [monthPattern]
  · simp [monthPattern]
  · simp only [monthPattern, decide_eq_true_eq]
    rintro ⟨h1, h2⟩
    linarith
  · intro habsent
    have hfind : rows.find? (fun row => row.month == i.1 + 1) = none := by
      rw [List.find?_eq_none]
      intro row hrow
      simpa using habsent row hrow
    simp [monthPattern, casesFor, hfind]

/-- C10 (witness): the shape theorem applied at position 0 (month 1) to the
grouped data containing only month 2 with 7 cases, so month 1 is absent and
the month-absent implication is discharged. -/
theorem seasonal_patterns_shape_witness :
    (∀ row ∈ ([⟨2, 7⟩] : List MonthRow), row.month ≠ 1)
    ∧ ((monthlyPatterns ([⟨2, 7⟩] : List MonthRow)).length = 12
      ∧ (monthlyPatterns ([⟨2, 7⟩] : List MonthRow))[(0 : Nat)]?
          = some (monthPattern ([⟨2, 7⟩] : List MonthRow) 1)
      ∧ (monthPattern ([⟨2, 7⟩] : List MonthRow) 1).month = 1
      ∧ ((monthPattern ([⟨2, 7⟩] : List MonthRow) 1).is_peak = true
          ↔ 12 / 10 < seasonalIndexFor ([⟨2, 7⟩] : List MonthRow) 1)
      ∧ ((monthPattern ([⟨2, 7⟩] : List MonthRow) 1).is_low = true
          ↔ seasonalIndexFor ([⟨2, 7⟩] : List MonthRow) 1 < 8 / 10)
      ∧ ¬((monthPattern ([⟨2, 7⟩] : List MonthRow) 1).is_peak = true
          ∧ (monthPattern ([⟨2, 7⟩] : List MonthRow) 1).is_low = true)
      ∧ (monthPattern ([⟨2, 7⟩] : List MonthRow) 1).total_cases = 0) :=
  ⟨by decide, by
    have h := seasonal_patterns_shape ([⟨2, 7⟩] : List MonthRow) ⟨0, by norm_num⟩
    exact ⟨h.1, h.2.1, h.2.2.1, h.2.2.2.1, h.2.2.2.2.1, h.2.2.2.2.2.1,
      h.2.2.2.2.2.2 (by decide)⟩⟩

end S3App
